import Mathlib

/-!
Verification development for the interview orchestration engine of the
Eightfold repository (backend/app).  Python agents and the interview
service are shallowly embedded as executable Lean definitions over
rationals (Python floats are modelled by exact rational arithmetic) and
explicit oracle parameters standing for the nondeterministic generative
backend.
-/

namespace Eightfold

/-! ### Configuration (backend/app/config.py) -/

def ANSWER_TIME_SECONDS : ℚ := 180

def TOTAL_QUESTIONS : Nat := 5

/-! ### Persona labels (backend/app/models/interview.py, PersonaType) -/

inductive PersonaType where
  | CONFUSED
  | EFFICIENT
  | CHATTY
  | EDGE_CASE
  | NORMAL
deriving Repr, DecidableEq

def PersonaType.value : PersonaType → String
  | .CONFUSED => "confused"
  | .EFFICIENT => "efficient"
  | .CHATTY => "chatty"
  | .EDGE_CASE => "edge_case"
  | .NORMAL => "normal"

/-! ### Python string helpers used by the agents -/

/-- Python str.strip with a character predicate: drop matching characters
from both ends of the string. -/
def pyStrip (s : String) (p : Char → Bool) : String :=
  String.mk (((s.data.dropWhile p).reverse.dropWhile p).reverse)

/-- ASCII lower-casing of one character (Python str.lower on the ASCII
range the agents feed it). -/
def asciiLower (c : Char) : Char :=
  if 65 ≤ c.toNat ∧ c.toNat ≤ 90 then Char.ofNat (c.toNat + 32) else c

/-- ASCII upper-casing of one character. -/
def asciiUpper (c : Char) : Char :=
  if 97 ≤ c.toNat ∧ c.toNat ≤ 122 then Char.ofNat (c.toNat - 32) else c

/-- Python str.lower. -/
def strLower (s : String) : String := String.mk (s.data.map asciiLower)

/-- Python str.upper. -/
def strUpper (s : String) : String := String.mk (s.data.map asciiUpper)

/-- Accumulator pass behind pySplitWs. -/
def splitWsAux : List Char → List Char → List String
  | [], acc => if acc = [] then [] else [String.mk acc.reverse]
  | c :: rest, acc =>
    if c.isWhitespace then
      if acc = [] then splitWsAux rest []
      else String.mk acc.reverse :: splitWsAux rest []
    else splitWsAux rest (c :: acc)

/-- Python str.split() with no arguments: split on whitespace runs and
drop empty pieces. -/
def pySplitWs (s : String) : List String := splitWsAux s.data []

/-- Fuel-driven core of Python str.count: counts non-overlapping
occurrences of pat, scanning left to right and skipping the length of
pat after each hit.  Fuel is the length of the haystack, which is enough
because each step consumes at least one character. -/
def pyCountSubstrAux (pat : List Char) : Nat → List Char → Nat
  | 0, _ => 0
  | fuel + 1, hay =>
    if hay = [] then 0
    else if List.isPrefixOf pat hay then
      1 + pyCountSubstrAux pat fuel (List.drop pat.length hay)
    else pyCountSubstrAux pat fuel (List.drop 1 hay)

/-- Python str.count on character lists (non-overlapping occurrences). -/
def pyCountSubstr (hay pat : List Char) : Nat :=
  if pat = [] then hay.length + 1 else pyCountSubstrAux pat hay.length hay

/-- Python substring count, s.count(sub). -/
def count_str (s sub : String) : Nat := pyCountSubstr s.data sub.data

/-- Python substring membership, sub in s. -/
def containsSubstr (s sub : String) : Bool := count_str s sub != 0

/-- Characters after the first colon, or everything when there is no
colon. -/
def afterFirstColonList : List Char → List Char
  | [] => []
  | c :: rest => if c = ':' then rest else afterFirstColonList rest

/-- Everything after the first colon of s, i.e. Python
s.split(":", 1)[-1] when a colon is present. -/
def afterFirstColon (s : String) : String :=
  String.mk (afterFirstColonList s.data)

/-! ### JSON scalars and Python float() coercion -/

/-- A JSON value as it can appear in a parsed backend object. -/
inductive JsonVal where
  | num (q : ℚ)
  | str (s : String)
  | boolean (b : Bool)
  | null
  | arr (elems : List JsonVal)
  | obj (fields : List (String × JsonVal))

/-- Digits of a decimal literal to a natural number. -/
def digitsToNat (cs : List Char) : Nat :=
  cs.foldl (fun n c => n * 10 + (c.toNat - 48)) 0

/-- Parse an unsigned decimal literal (digits with an optional single
dot).  Models the fragment of Python float() syntax the agents can
receive; strings outside this fragment are treated as non-coercible,
which only ever routes them to the 50.0 substitution branch. -/
def parseDecimal (cs : List Char) : Option ℚ :=
  let intPart := cs.takeWhile Char.isDigit
  let rest := cs.dropWhile Char.isDigit
  match rest with
  | [] => if intPart = [] then none else some (digitsToNat intPart : ℚ)
  | c :: frac =>
    if c = '.' ∧ frac.all Char.isDigit ∧ (intPart ≠ [] ∨ frac ≠ []) then
      some ((digitsToNat intPart : ℚ) + (digitsToNat frac : ℚ) / (10 ^ frac.length))
    else none

/-- Python float() applied to a string (after stripping whitespace). -/
def pyFloatStr (s : String) : Option ℚ :=
  match (pyStrip s Char.isWhitespace).data with
  | '-' :: rest => (parseDecimal rest).map Neg.neg
  | '+' :: rest => parseDecimal rest
  | cs => parseDecimal cs

/-- Python float() applied to a JSON value: numbers pass through,
booleans coerce to 0/1, strings are parsed, everything else raises
(TypeError), modelled as none. -/
def pyFloat : JsonVal → Option ℚ
  | .num q => some q
  | .boolean b => some (if b then 1 else 0)
  | .str s => pyFloatStr s
  | .null => none
  | .arr _ => none
  | .obj _ => none

/-! ### STAR pattern checker (backend/app/agents/star_checker.py) -/

/-- A parsed STAR analysis object: per component a presence flag and a
numeric quality value.  Absent keys reduce to the defaults False and 0
used by analysis.get in the source. -/
structure StarAnalysis where
  situation_present : Bool := false
  situation_quality : ℚ := 0
  task_present : Bool := false
  task_quality : ℚ := 0
  action_present : Bool := false
  action_quality : ℚ := 0
  result_present : Bool := false
  result_quality : ℚ := 0
deriving Repr, DecidableEq

/-- The (presence, quality) pairs in the fixed component order the
source iterates over. -/
def starComponents (a : StarAnalysis) : List (Bool × ℚ) :=
  [(a.situation_present, a.situation_quality),
   (a.task_present, a.task_quality),
   (a.action_present, a.action_quality),
   (a.result_present, a.result_quality)]

/-- STARChecker._calculate_star_score: 10 presence points per present
component plus (quality/5)*15 quality points per present component,
capped above at 100. -/
def calculate_star_score (a : StarAnalysis) : ℚ :=
  let presence_score : ℚ :=
    (((starComponents a).filter (fun c => c.1)).length : ℚ) * 10
  let quality_score : ℚ :=
    ((starComponents a).map (fun c => if c.1 then c.2 / 5 * 15 else 0)).sum
  min 100 (presence_score + quality_score)

/-- STARChecker._get_fallback_analysis: all components absent, quality 0. -/
def fallback_analysis : StarAnalysis := {}

/-- Outcome of the backend round trip of check_star_pattern: either a
successfully parsed analysis object with numeric fields, or any failure
(backend exception, JSON parse failure, or a type error while scoring). -/
inductive StarOutcome where
  | failure
  | parsed (a : StarAnalysis)

/-- Result of check_star_pattern: the analysis dict together with the
score stored under its score key. -/
structure StarCheckResult where
  analysis : StarAnalysis
  score : ℚ
deriving Repr, DecidableEq

/-- STARChecker.check_star_pattern: on failure returns the fallback
analysis with score 0.0, otherwise the parsed analysis and its
calculated score. -/
def check_star_pattern : StarOutcome → StarCheckResult
  | .failure => ⟨fallback_analysis, 0⟩
  | .parsed a => ⟨a, calculate_star_score a⟩

/-- The score formula in the words of the specification: for each of the
four components, +10 if present; additionally (quality/5)*15 for each
present component; final score = presence points + quality points,
capped at 100.0. -/
def spec_star_score (a : StarAnalysis) : ℚ :=
  let presence : ℚ :=
    (if a.situation_present then 10 else 0) + (if a.task_present then 10 else 0)
    + (if a.action_present then 10 else 0) + (if a.result_present then 10 else 0)
  let quality : ℚ :=
    (if a.situation_present then a.situation_quality / 5 * 15 else 0)
    + (if a.task_present then a.task_quality / 5 * 15 else 0)
    + (if a.action_present then a.action_quality / 5 * 15 else 0)
    + (if a.result_present then a.result_quality / 5 * 15 else 0)
  min (presence + quality) 100

/-- All four components present with quality 5. -/
def allPresentQuality5 : StarAnalysis :=
  { situation_present := true, situation_quality := 5,
    task_present := true, task_quality := 5,
    action_present := true, action_quality := 5,
    result_present := true, result_quality := 5 }

/-- The worked example of the specification: situation, task and action
present with qualities 4, 3, 5; result absent. -/
def exampleAnalysis66 : StarAnalysis :=
  { situation_present := true, situation_quality := 4,
    task_present := true, task_quality := 3,
    action_present := true, action_quality := 5 }

/-- A parsed analysis carrying out-of-range negative quality values. -/
def negativeQualityAnalysis : StarAnalysis :=
  { situation_present := true, situation_quality := -5,
    task_present := true, task_quality := -5,
    action_present := true, action_quality := -5,
    result_present := true, result_quality := -5 }

/-- C4 counterexample: a parsed analysis with all four components
present at quality -5 is scored -20, which is outside [0,100], so the
claim that every returned score lies in [0,100] even for out-of-range
quality values is false. -/
theorem star_score_negative_counterexample :
    ¬ (0 ≤ (check_star_pattern (StarOutcome.parsed negativeQualityAnalysis)).score
        ∧ (check_star_pattern (StarOutcome.parsed negativeQualityAnalysis)).score ≤ 100) := by
  have h : (check_star_pattern (StarOutcome.parsed negativeQualityAnalysis)).score = -20 := by
    norm_num [check_star_pattern, calculate_star_score, starComponents,
      negativeQualityAnalysis, List.filter, min_def]
  intro hc
  rw [h] at hc
  exact absurd hc.1 (by norm_num)

/-- C4 (amended): every returned score is at most 100, and whenever the
quality values of the returned analysis are nonnegative (in particular
for the advertised 0..5 range and for the fallback) the score lies in
[0,100]; the all-absent analysis scores exactly 0 and the all-present
quality-5 analysis scores exactly 100. -/
theorem star_score_bounds (o : StarOutcome)
    (h : ∀ c ∈ starComponents (check_star_pattern o).analysis, 0 ≤ c.2) :
    ((check_star_pattern o).score ≤ 100 ∧ 0 ≤ (check_star_pattern o).score)
    ∧ (check_star_pattern (StarOutcome.parsed fallback_analysis)).score = 0
    ∧ (check_star_pattern StarOutcome.failure).score = 0
    ∧ (check_star_pattern (StarOutcome.parsed allPresentQuality5)).score = 100 := by
  refine ⟨⟨?_, ?_⟩,
    by norm_num [check_star_pattern, calculate_star_score, starComponents,
      fallback_analysis, List.filter, min_def],
    by norm_num [check_star_pattern],
    by norm_num [check_star_pattern, calculate_star_score, starComponents,
      allPresentQuality5, List.filter, min_def]⟩
  · cases o with
    | failure => simp [check_star_pattern]
    | parsed a => exact min_le_left _ _
  · cases o with
    | failure => simp [check_star_pattern]
    | parsed a =>
      simp only [check_star_pattern, starComponents, List.mem_cons, List.not_mem_nil,
        or_false, forall_eq_or_imp, forall_eq] at h
      obtain ⟨h1, h2, h3, h4⟩ := h
      simp only [check_star_pattern, calculate_star_score, starComponents]
      rw [le_min_iff]
      constructor
      · norm_num
      · have hterm : ∀ (b : Bool) (q : ℚ), 0 ≤ q → 0 ≤ (if b then q / 5 * 15 else 0) := by
          intro b q hq
          cases b <;> simp <;> positivity
        have hp : (0 : ℚ) ≤ (((starComponents a).filter (fun c => c.1)).length : ℚ) * 10 := by
          positivity
        simp only [starComponents] at hp
        have := hterm a.situation_present a.situation_quality h1
        have := hterm a.task_present a.task_quality h2
        have := hterm a.action_present a.action_quality h3
        have := hterm a.result_present a.result_quality h4
        simp only [List.map_cons, List.map_nil, List.sum_cons, List.sum_nil, add_zero]
        linarith

/-- C4 witness: the bounds applied to the backend-failure outcome, whose
fallback analysis has all qualities 0. -/
theorem star_score_bounds_witness :
    ((check_star_pattern StarOutcome.failure).score ≤ 100
      ∧ 0 ≤ (check_star_pattern StarOutcome.failure).score) :=
  (star_score_bounds StarOutcome.failure
    (by simp [check_star_pattern, fallback_analysis, starComponents])).1

/-- C5: the computed STAR score coincides, for every parsed analysis
object, with the formula of the specification (10 presence points per
present component plus (quality/5)*15 quality points per present
component, capped at 100.0), and the worked example (situation, task,
action present with qualities 4, 3, 5 and result absent) scores exactly
66.0. -/
theorem star_score_matches_spec_formula (a : StarAnalysis) :
    calculate_star_score a = spec_star_score a
    ∧ calculate_star_score exampleAnalysis66 = 66 := by
  constructor
  · simp only [calculate_star_score, spec_star_score, starComponents, min_comm (100 : ℚ)]
    cases a with
    | mk sp sq tp tq ap aq rp rq =>
      cases sp <;> cases tp <;> cases ap <;> cases rp <;>
        simp [List.filter] <;> ring_nf
  · norm_num [calculate_star_score, starComponents, exampleAnalysis66,
      List.filter, min_def]

/-! ### Response evaluator (backend/app/agents/response_evaluator.py) -/

/-- A parsed backend evaluation object, restricted to the four numeric
score fields; each field may be absent (none) or hold an arbitrary JSON
value. -/
structure RawEvaluation where
  relevance_score : Option JsonVal := none
  confidence_score : Option JsonVal := none
  technical_depth_score : Option JsonVal := none
  clarity_score : Option JsonVal := none

/-- One score field of ResponseEvaluator._normalize_evaluation: a
missing key is first filled with the default 50.0, then the value is
coerced with float() and clamped by max(0.0, min(100.0, score)), with
50.0 substituted when the coercion raises. -/
def normalize_score_field (v : Option JsonVal) : ℚ :=
  let filled := v.getD (JsonVal.num 50)
  match pyFloat filled with
  | some score => max 0 (min 100 score)
  | none => 50

/-- The four score fields of a normalized evaluation. -/
structure NormalizedScores where
  relevance_score : ℚ
  confidence_score : ℚ
  technical_depth_score : ℚ
  clarity_score : ℚ
deriving Repr, DecidableEq

/-- ResponseEvaluator._normalize_evaluation on the four score fields. -/
def normalize_evaluation (e : RawEvaluation) : NormalizedScores :=
  { relevance_score := normalize_score_field e.relevance_score,
    confidence_score := normalize_score_field e.confidence_score,
    technical_depth_score := normalize_score_field e.technical_depth_score,
    clarity_score := normalize_score_field e.clarity_score }

lemma normalize_score_field_mem (v : Option JsonVal) :
    0 ≤ normalize_score_field v ∧ normalize_score_field v ≤ 100 := by
  simp only [normalize_score_field]
  cases hf : pyFloat (v.getD (JsonVal.num 50)) with
  | none => norm_num
  | some q =>
    simp only
    exact ⟨le_max_left _ _, max_le (by norm_num) (min_le_left _ _)⟩

/-- C6: after normalization every one of the four score fields is in
[0,100] for every possible parsed backend object; a missing field
becomes 50.0, a present numeric field is clamped to [0,100], and a
present field whose float() coercion fails becomes 50.0. -/
theorem normalized_scores_in_range (e : RawEvaluation) :
    ((0 ≤ (normalize_evaluation e).relevance_score ∧ (normalize_evaluation e).relevance_score ≤ 100)
      ∧ (0 ≤ (normalize_evaluation e).confidence_score ∧ (normalize_evaluation e).confidence_score ≤ 100)
      ∧ (0 ≤ (normalize_evaluation e).technical_depth_score ∧ (normalize_evaluation e).technical_depth_score ≤ 100)
      ∧ (0 ≤ (normalize_evaluation e).clarity_score ∧ (normalize_evaluation e).clarity_score ≤ 100))
    ∧ normalize_score_field none = 50
    ∧ (∀ q : ℚ, normalize_score_field (some (JsonVal.num q)) = max 0 (min 100 q))
    ∧ (∀ v : JsonVal, pyFloat v = none → normalize_score_field (some v) = 50) := by
  refine ⟨⟨normalize_score_field_mem _, normalize_score_field_mem _,
      normalize_score_field_mem _, normalize_score_field_mem _⟩, ?_, ?_, ?_⟩
  · norm_num [normalize_score_field, pyFloat]
  · intro q
    simp [normalize_score_field, pyFloat]
  · intro v hv
    simp [normalize_score_field, hv]

/-- C6 witness: the noncoercible-field conjunct applied to a concrete
null value (float(None) raises in Python). -/
theorem normalized_scores_in_range_witness :
    normalize_score_field (some JsonVal.null) = 50 :=
  (normalized_scores_in_range {}).2.2.2 JsonVal.null rfl

/-! ### Follow-up engine (backend/app/agents/followup_engine.py) -/

/-- The evaluation fields the follow-up engine reads, with the defaults
the source supplies to evaluation.get for absent keys already applied
(needs_follow_up False, is_on_topic True, every score 50). -/
structure FollowUpEval where
  needs_follow_up : Bool := false
  is_on_topic : Bool := true
  relevance_score : ℚ := 50
  confidence_score : ℚ := 50
  technical_depth_score : ℚ := 50
  follow_up_reason : Option String := none
deriving Repr, DecidableEq

/-- A FollowUpQuestion model object (text, reason, type). -/
structure FollowUpQuestion where
  text : String
  reason : String
  ftype : String
deriving Repr, DecidableEq

/-- FollowUpEngine._determine_follow_up_type: first matching rule wins. -/
def determine_follow_up_type (evaluation : FollowUpEval) (persona : PersonaType) : String :=
  if evaluation.is_on_topic = false then "redirect"
  else if evaluation.relevance_score < 60 then "probe"
  else if persona = PersonaType.CONFUSED then "hint"
  else if evaluation.confidence_score > 80 then "challenge"
  else if evaluation.technical_depth_score < 60 then "probe"
  else "probe"

/-- FollowUpEngine._get_fallback_follow_up: fixed fallback strings keyed
by type, with the probe text as default. -/
def fallback_follow_up (follow_up_type : String) : String :=
  if follow_up_type = "redirect" then
    "Let\x27s refocus on the original question. Can you provide a more specific answer addressing the core issue?"
  else if follow_up_type = "probe" then
    "Can you elaborate more on that? What specific steps did you take, and what were the measurable outcomes?"
  else if follow_up_type = "hint" then
    "Think about your past experiences. Can you relate this to a specific project or situation from your background?"
  else if follow_up_type = "challenge" then
    "That\x27s interesting. How would you handle this situation if you had different constraints? What alternatives did you consider?"
  else
    "Can you elaborate more on that? What specific steps did you take, and what were the measurable outcomes?"

/-- An ASCII single quote character. -/
def squote : Char := Char.ofNat 39

/-- FollowUpEngine._generate_follow_up_text: on backend failure (none)
return the fallback for the type; otherwise strip whitespace and
surrounding quote characters and discard everything up to and including
the first colon when one is present. -/
def generate_follow_up_text (follow_up_type : String) (backend : Option String) : String :=
  match backend with
  | none => fallback_follow_up follow_up_type
  | some response =>
    let follow_up := pyStrip (pyStrip response Char.isWhitespace)
      (fun c => c == '"' || c == squote)
    if containsSubstr follow_up ":" then
      pyStrip (afterFirstColon follow_up) Char.isWhitespace
    else follow_up

/-- FollowUpEngine.generate_follow_up: gate on needs_follow_up, select
the type, generate the text, and return none when the resulting text is
empty (Python falsy). -/
def generate_follow_up (evaluation : FollowUpEval) (persona : PersonaType)
    (backend : Option String) : Option FollowUpQuestion :=
  if evaluation.needs_follow_up = false then none
  else
    let follow_up_type := determine_follow_up_type evaluation persona
    let follow_up_text := generate_follow_up_text follow_up_type backend
    if follow_up_text = "" then none
    else some { text := follow_up_text,
                reason := evaluation.follow_up_reason.getD "Seeking clarification",
                ftype := follow_up_type }

/-- C7: the follow-up decision returns none whenever needs_follow_up is
false, and otherwise any produced follow-up carries the type given by
the first matching rule in the fixed order off-topic to redirect, low
relevance to probe, confused persona to hint, high confidence to
challenge, low technical depth to probe, default probe. -/
theorem follow_up_decision_rules (evaluation : FollowUpEval) (persona : PersonaType)
    (backend : Option String) :
    (evaluation.needs_follow_up = false → generate_follow_up evaluation persona backend = none)
    ∧ (∀ f : FollowUpQuestion, generate_follow_up evaluation persona backend = some f →
        f.ftype =
          (if evaluation.is_on_topic = false then "redirect"
           else if evaluation.relevance_score < 60 then "probe"
           else if persona = PersonaType.CONFUSED then "hint"
           else if evaluation.confidence_score > 80 then "challenge"
           else if evaluation.technical_depth_score < 60 then "probe"
           else "probe")) := by
  constructor
  · intro h
    simp [generate_follow_up, h]
  · intro f hf
    by_cases h : evaluation.needs_follow_up = false
    · simp [generate_follow_up, h] at hf
    · simp only [generate_follow_up, h, if_false, Bool.not_eq_false] at hf
      by_cases ht : generate_follow_up_text (determine_follow_up_type evaluation persona) backend = ""
      · simp [ht] at hf
      · simp only [ht, if_false] at hf
        rw [if_neg (by simp)] at hf
        rw [← Option.some.inj hf]
        rfl

/-- C7 witness: the gate applied to the default evaluation, whose
needs_follow_up flag is false. -/
theorem follow_up_decision_rules_witness :
    generate_follow_up {} PersonaType.NORMAL none = none :=
  (follow_up_decision_rules {} PersonaType.NORMAL none).1 rfl

/-! ### Persona detector (backend/app/agents/persona_detector.py) -/

def hesitation_words : List String :=
  ["um", "uh", "like", "maybe", "i think", "i guess", "kind of", "sort of"]

def star_indicators : List String :=
  ["situation", "task", "action", "result", "first", "then", "finally"]

/-- PersonaDetector._rule_based_detection. -/
def rule_based_detection (answer : String) (duration_seconds : ℚ) (word_count : Nat) :
    PersonaType :=
  if word_count < 10 then PersonaType.EDGE_CASE
  else if word_count < 3 then PersonaType.EDGE_CASE
  else
    let no_spaces := String.mk (answer.data.filter (fun c => c != ' '))
    let unique_chars := (strLower no_spaces).data.eraseDups.length
    if unique_chars < 5 then PersonaType.EDGE_CASE
    else
      let hesitation_count :=
        (hesitation_words.map (fun w => count_str (strLower answer) w)).sum
      if hesitation_count > 3 ∨ (hesitation_count > 1 ∧ word_count < 50) then
        PersonaType.CONFUSED
      else if word_count > 300 ∨ duration_seconds > 150 then PersonaType.CHATTY
      else if (50 ≤ word_count ∧ word_count ≤ 150 ∧ duration_seconds < 90)
          ∧ star_indicators.any (fun i => containsSubstr (strLower answer) i) then
        PersonaType.EFFICIENT
      else PersonaType.NORMAL

/-- PersonaDetector._llm_based_detection: parse the backend response by
keyword containment after stripping and upper-casing; NORMAL on no
match and on backend failure (none). -/
def llm_based_detection (backend : Option String) : PersonaType :=
  match backend with
  | none => PersonaType.NORMAL
  | some response =>
    let persona_str := strUpper (pyStrip response Char.isWhitespace)
    if containsSubstr persona_str "CONFUSED" then PersonaType.CONFUSED
    else if containsSubstr persona_str "EFFICIENT" then PersonaType.EFFICIENT
    else if containsSubstr persona_str "CHATTY" then PersonaType.CHATTY
    else if containsSubstr persona_str "EDGE" || containsSubstr persona_str "EDGE_CASE" then
      PersonaType.EDGE_CASE
    else PersonaType.NORMAL

/-- PersonaDetector.detect_persona: rule-based detection first, then
escalation to the backend when the rules produced EDGE_CASE or the
answer is under 10 words; the escalated result overwrites the
rule-based one. -/
def detect_persona (answer : String) (duration_seconds : ℚ) (word_count : Nat)
    (backend : Option String) : PersonaType :=
  let persona := rule_based_detection answer duration_seconds word_count
  if persona = PersonaType.EDGE_CASE ∨ (pySplitWs answer).length < 10 then
    llm_based_detection backend
  else persona

/-- C8 counterexample: a two-word answer for which the generative
backend replies NORMAL is classified normal, not edge_case, so the claim
that a word count of 2 yields edge_case for every behavior of the
backend is false. -/
theorem persona_two_words_counterexample :
    detect_persona "did work" 30 2 (some "NORMAL") ≠ PersonaType.EDGE_CASE := by
  decide

/-- C8 (amended): for every answer with word count 2 the rule-based
stage classifies edge_case and detection always escalates to the
generative backend, whose parsed label overwrites the rule-based result;
the final persona is the backend keyword parse, which is normal (not
edge_case) on backend failure or an unrecognized reply. -/
theorem persona_two_words_escalates (answer : String) (duration_seconds : ℚ)
    (backend : Option String) :
    rule_based_detection answer duration_seconds 2 = PersonaType.EDGE_CASE
    ∧ detect_persona answer duration_seconds 2 backend = llm_based_detection backend
    ∧ detect_persona answer duration_seconds 2 none = PersonaType.NORMAL := by
  have hr : rule_based_detection answer duration_seconds 2 = PersonaType.EDGE_CASE := by
    unfold rule_based_detection
    norm_num
  refine ⟨hr, ?_, ?_⟩
  · unfold detect_persona
    rw [if_pos (Or.inl hr)]
  · unfold detect_persona
    rw [if_pos (Or.inl hr)]
    rfl

/-! ### Question generator (backend/app/agents/question_generator.py) -/

/-- An InterviewQuestion model object. -/
structure InterviewQuestion where
  question_id : Nat
  question_text : String
  question_type : String
  related_to : Option String := none
  expected_elements : List String := []
  difficulty : String := "medium"
deriving Repr, DecidableEq

/-- The usable payload of one entry of the parsed questions list.  An
entry whose conversion raises (missing question_text key or an invalid
question_type enum value) is modelled as none below. -/
structure QuestionData where
  question_text : String
  question_type : String := "behavioral"
  related_to : Option String := none
  expected_elements : List String := []
  difficulty : String := "medium"
deriving Repr, DecidableEq

/-- Outcome of the backend round trip of generate_questions: total
failure (backend exception or unparsable JSON), or the parsed questions
list, each entry either convertible or malformed. -/
inductive GenOutcome where
  | failure
  | parsed (entries : List (Option QuestionData))

def technical_roles : List String :=
  ["software", "data analyst", "data engineer", "developer", "devops", "engineer"]

/-- Keyword match of the role string against the technical role bank. -/
def is_technical_role (target_role : String) : Bool :=
  technical_roles.any (fun tech => containsSubstr (strLower target_role) tech)

/-- The (text, type, difficulty) rows of the generic question banks; ids
outside 1..5 fall back to row 1, mirroring questions.get(question_id,
questions[1]). -/
def generic_question_data (is_technical : Bool) (target_role : String)
    (question_id : Nat) : String × String × String :=
  if is_technical then
    match question_id with
    | 2 => ("Describe a technical challenge you faced in one of your projects. How did you overcome it?",
            "behavioral", "easy")
    | 3 => ("Walk me through your approach to solving a complex problem in "
              ++ strLower target_role ++ ". What tools do you use?", "technical", "hard")
    | 4 => ("Tell me about a time you had to learn a new technology quickly. What was your process?",
            "behavioral", "medium")
    | 5 => ("How do you ensure quality and maintainability in your work?", "situational", "medium")
    | _ => ("Tell me about a significant project or internship where you applied "
              ++ target_role ++ " skills.", "experience", "medium")
  else
    match question_id with
    | 2 => ("Describe a situation where you managed competing priorities. How did you handle it?",
            "behavioral", "easy")
    | 3 => ("How would you approach a typical challenge in " ++ target_role ++ "?",
            "situational", "hard")
    | 4 => ("Tell me about a time you had to influence stakeholders without authority.",
            "behavioral", "medium")
    | 5 => ("How do you measure success in your role?", "situational", "medium")
    | _ => ("Tell me about your most impactful accomplishment as a " ++ target_role ++ ".",
            "experience", "medium")

/-- QuestionGenerator._create_generic_question. -/
def create_generic_question (question_id : Nat) (target_role : String) : InterviewQuestion :=
  let q := generic_question_data (is_technical_role target_role) target_role question_id
  { question_id := question_id, question_text := q.1, question_type := q.2.1,
    difficulty := q.2.2 }

/-- QuestionGenerator._get_fallback_questions. -/
def fallback_questions (target_role : String) : List InterviewQuestion :=
  [create_generic_question 1 target_role,
   create_generic_question 2 target_role,
   create_generic_question 3 target_role,
   create_generic_question 4 target_role,
   create_generic_question 5 target_role]

/-- Conversion of one enumerated entry to an InterviewQuestion: the id
is the enumeration index plus one; a malformed entry is skipped. -/
def convert_entry (p : Nat × Option QuestionData) : Option InterviewQuestion :=
  p.2.map (fun q =>
    { question_id := p.1 + 1, question_text := q.question_text,
      question_type := q.question_type, related_to := q.related_to,
      expected_elements := q.expected_elements, difficulty := q.difficulty })

/-- The while loop that pads with generic questions until
TOTAL_QUESTIONS are present; the fuel TOTAL_QUESTIONS is enough because
every iteration grows the list by one. -/
def pad_questions_aux (target_role : String) : Nat → List InterviewQuestion → List InterviewQuestion
  | 0, questions => questions
  | fuel + 1, questions =>
    if questions.length < TOTAL_QUESTIONS then
      pad_questions_aux target_role fuel
        (questions ++ [create_generic_question (questions.length + 1) target_role])
    else questions

/-- Padding followed by the final truncation questions[:TOTAL_QUESTIONS]. -/
def pad_questions (questions : List InterviewQuestion) (target_role : String) :
    List InterviewQuestion :=
  (pad_questions_aux target_role TOTAL_QUESTIONS questions).take TOTAL_QUESTIONS

/-- QuestionGenerator.generate_questions: on failure the generic
fallback set; otherwise convert the first TOTAL_QUESTIONS parsed
entries, skipping malformed ones, then pad and truncate. -/
def generate_questions (target_role : String) (outcome : GenOutcome) :
    List InterviewQuestion :=
  match outcome with
  | .failure => fallback_questions target_role
  | .parsed entries =>
    let sliced := entries.take TOTAL_QUESTIONS
    let questions := sliced.enum.filterMap convert_entry
    pad_questions questions target_role

/-- The identifiers of a question list, in order. -/
def questionIds (questions : List InterviewQuestion) : List Nat :=
  questions.map (fun q => q.question_id)

lemma create_generic_question_id (i : Nat) (role : String) :
    (create_generic_question i role).question_id = i := rfl

lemma pad_questions_aux_length (role : String) :
    ∀ (fuel : Nat) (qs : List InterviewQuestion),
      TOTAL_QUESTIONS ≤ qs.length + fuel →
      TOTAL_QUESTIONS ≤ (pad_questions_aux role fuel qs).length := by
  intro fuel
  induction fuel with
  | zero => intro qs h; simpa [pad_questions_aux] using h
  | succ f ih =>
    intro qs h
    unfold pad_questions_aux
    by_cases hlt : qs.length < TOTAL_QUESTIONS
    · rw [if_pos hlt]
      apply ih
      simp only [List.length_append, List.length_cons, List.length_nil]
      omega
    · rw [if_neg hlt]
      omega

lemma pad_questions_length (qs : List InterviewQuestion) (role : String) :
    (pad_questions qs role).length = TOTAL_QUESTIONS := by
  unfold pad_questions
  rw [List.length_take]
  exact Nat.min_eq_left (pad_questions_aux_length role TOTAL_QUESTIONS qs (by omega))

lemma pad_questions_aux_ids (role : String) :
    ∀ (fuel : Nat) (qs : List InterviewQuestion),
      questionIds qs = List.range' 1 qs.length →
      questionIds (pad_questions_aux role fuel qs)
        = List.range' 1 (pad_questions_aux role fuel qs).length := by
  intro fuel
  induction fuel with
  | zero => intro qs h; simpa [pad_questions_aux] using h
  | succ f ih =>
    intro qs h
    unfold pad_questions_aux
    by_cases hlt : qs.length < TOTAL_QUESTIONS
    · rw [if_pos hlt]
      apply ih
      simp only [questionIds, List.map_append, List.map_cons, List.map_nil,
        create_generic_question_id, List.length_append, List.length_cons, List.length_nil]
      rw [show qs.length + (0 + 1) = qs.length + 1 by omega, List.range'_concat]
      simp only [questionIds] at h
      rw [h]
      simp [Nat.add_comm]
    · rw [if_neg hlt]
      exact h

lemma pad_questions_ids (qs : List InterviewQuestion) (role : String)
    (h : questionIds qs = List.range' 1 qs.length) :
    questionIds (pad_questions qs role) = List.range' 1 TOTAL_QUESTIONS := by
  unfold pad_questions
  have hids := pad_questions_aux_ids role TOTAL_QUESTIONS qs h
  have hlen := pad_questions_aux_length role TOTAL_QUESTIONS qs (by omega)
  set l := pad_questions_aux role TOTAL_QUESTIONS qs with hl
  rw [questionIds, List.map_take, ← questionIds, hids]
  obtain ⟨k, hk⟩ : ∃ k, l.length = k + TOTAL_QUESTIONS := ⟨l.length - TOTAL_QUESTIONS, by omega⟩
  rw [hk, ← List.range'_append_1]
  exact List.take_left' (by rw [List.length_range'])

lemma convert_all_valid_ids :
    ∀ (l : List (Option QuestionData)) (s : Nat), (∀ e ∈ l, e ≠ none) →
      questionIds ((List.enumFrom s l).filterMap convert_entry)
        = List.range' (s + 1) l.length := by
  intro l
  induction l with
  | nil => intro s _; simp [questionIds]
  | cons e rest ih =>
    intro s hval
    cases e with
    | none => exact absurd rfl (hval none (List.mem_cons_self _ _))
    | some q =>
      have hrest := ih (s + 1) (fun x hx => hval x (List.mem_cons_of_mem _ hx))
      simp only [List.enumFrom_cons]
      rw [List.filterMap_cons_some (show convert_entry (s, some q) = some _ from rfl)]
      simp only [questionIds, List.map_cons] at hrest ⊢
      rw [hrest, List.length_cons, List.range'_succ]

/-- The parsed entry list of the C9 counterexample: five entries, the
second malformed. -/
def badEntries : List (Option QuestionData) :=
  [some { question_text := "QA" }, none,
   some { question_text := "QB" }, some { question_text := "QC" },
   some { question_text := "QD" }]

/-- C9 counterexample: with a malformed second entry the generated list
still has five questions but its identifiers are 1,3,4,5,5 rather than
1..5, so the claim that the identifiers are exactly 1..N is false. -/
theorem generate_questions_ids_counterexample :
    questionIds (generate_questions "Software Engineer" (GenOutcome.parsed badEntries))
      = [1, 3, 4, 5, 5]
    ∧ [1, 3, 4, 5, 5] ≠ [1, 2, 3, 4, 5] := by
  constructor
  · decide
  · decide

/-- C9 (amended): for every role and backend outcome exactly
TOTAL_QUESTIONS questions are returned; the identifiers are exactly 1..N
in order when the whole batch fails (generic fallback) and when every
retained entry converts successfully, but a malformed entry among the
first N makes its id be skipped and the padding can duplicate ids. -/
theorem generate_questions_count_and_ids (role : String) (outcome : GenOutcome) :
    (generate_questions role outcome).length = TOTAL_QUESTIONS
    ∧ questionIds (generate_questions role GenOutcome.failure) = [1, 2, 3, 4, 5]
    ∧ (∀ entries : List (Option QuestionData), (∀ e ∈ entries, e ≠ none) →
        questionIds (generate_questions role (GenOutcome.parsed entries)) = [1, 2, 3, 4, 5]) := by
  refine ⟨?_, ?_, ?_⟩
  · cases outcome with
    | failure =>
      simp [generate_questions, fallback_questions, TOTAL_QUESTIONS]
    | parsed entries =>
      exact pad_questions_length _ _
  · simp [generate_questions, fallback_questions, questionIds, create_generic_question_id]
  · intro entries hval
    have hval' : ∀ e ∈ entries.take TOTAL_QUESTIONS, e ≠ none :=
      fun e he => hval e (List.take_subset _ _ he)
    have hconv := convert_all_valid_ids (entries.take TOTAL_QUESTIONS) 0 hval'
    simp only [Nat.zero_add] at hconv
    rw [← List.enum_eq_enumFrom] at hconv
    have hlen : ((entries.take TOTAL_QUESTIONS).enum.filterMap convert_entry).length
        = (entries.take TOTAL_QUESTIONS).length := by
      have := congrArg List.length hconv
      simpa [questionIds, List.length_range'] using this
    simp only [generate_questions]
    rw [pad_questions_ids]
    · rfl
    · rw [hlen]
      exact hconv

/-- C9 witness: a single valid parsed entry is padded out to the five
generic questions with identifiers 1..5. -/
theorem generate_questions_count_and_ids_witness :
    questionIds (generate_questions "QA Analyst"
      (GenOutcome.parsed [some { question_text := "T1" }])) = [1, 2, 3, 4, 5] :=
  (generate_questions_count_and_ids "QA Analyst" GenOutcome.failure).2.2
    [some { question_text := "T1" }] (by simp)

/-! ### Report generator (backend/app/agents/report_generator.py) -/

/-- One evaluation dict as consumed by the report generator: each field
may be absent (none), in which case the corresponding .get default of
the source applies. -/
structure ReportEval where
  relevance_score : Option ℚ := none
  confidence_score : Option ℚ := none
  technical_depth_score : Option ℚ := none
  clarity_score : Option ℚ := none
  star_analysis : Option StarCheckResult := none
  word_count : Option ℚ := none
  persona : Option String := none
deriving Repr, DecidableEq

/-- ScoreBreakdown model object, fields in source order. -/
structure ScoreBreakdown where
  confidence : ℚ
  communication : ℚ
  technical_depth : ℚ
  star_method_usage : ℚ
  behavioral_clarity : ℚ
  overall : ℚ
deriving Repr, DecidableEq

/-- Round half to even on integers scaled by 100, modelling Python
round(x, 2) under exact rational arithmetic. -/
def roundHalfEven (q : ℚ) : ℤ :=
  if q - ⌊q⌋ < 1 / 2 then ⌊q⌋
  else if 1 / 2 < q - ⌊q⌋ then ⌊q⌋ + 1
  else if ⌊q⌋ % 2 = 0 then ⌊q⌋ else ⌊q⌋ + 1

/-- Python round(x, 2). -/
def pyRound2 (q : ℚ) : ℚ := (roundHalfEven (q * 100) : ℚ) / 100

/-- ReportGenerator._calculate_scores: on an empty evaluation list the
fixed default breakdown; otherwise per-metric averages and the weighted
overall, each rounded to two decimals. -/
def calculate_scores (all_evaluations : List ReportEval) : ScoreBreakdown :=
  if all_evaluations.isEmpty then
    { confidence := 50, communication := 50, technical_depth := 50,
      star_method_usage := 0, behavioral_clarity := 50, overall := 50 }
  else
    let confidence_scores := all_evaluations.map (fun e => e.confidence_score.getD 50)
    let technical_scores := all_evaluations.map (fun e => e.technical_depth_score.getD 50)
    let clarity_scores := all_evaluations.map (fun e => e.clarity_score.getD 50)
    let relevance_scores := all_evaluations.map (fun e => e.relevance_score.getD 50)
    let star_scores := all_evaluations.map
      (fun e => ((e.star_analysis.map (fun s => s.score)).getD 0))
    let confidence := confidence_scores.sum / (confidence_scores.length : ℚ)
    let technical := technical_scores.sum / (technical_scores.length : ℚ)
    let communication := clarity_scores.sum / (clarity_scores.length : ℚ)
    let star := if star_scores.isEmpty = false then star_scores.sum / (star_scores.length : ℚ) else 0
    let behavioral := relevance_scores.sum / (relevance_scores.length : ℚ)
    let overall := confidence * (25 / 100) + technical * (25 / 100)
      + communication * (25 / 100) + star * (15 / 100) + behavioral * (10 / 100)
    { confidence := pyRound2 confidence, communication := pyRound2 communication,
      technical_depth := pyRound2 technical, star_method_usage := pyRound2 star,
      behavioral_clarity := pyRound2 behavioral, overall := pyRound2 overall }

/-- C1 counterexample: on the empty evaluation list the returned
overall is the hardcoded 50, while the weighted combination of the
returned default metrics is 42.5, so the claim that the overall equals
that weighted combination is false. -/
theorem empty_report_overall_counterexample :
    (calculate_scores []).overall = 50
    ∧ (calculate_scores []).confidence * (25 / 100)
        + (calculate_scores []).technical_depth * (25 / 100)
        + (calculate_scores []).communication * (25 / 100)
        + (calculate_scores []).star_method_usage * (15 / 100)
        + (calculate_scores []).behavioral_clarity * (10 / 100) = 425 / 10
    ∧ (50 : ℚ) ≠ 425 / 10 := by
  refine ⟨rfl, by norm_num [calculate_scores], by norm_num⟩

/-- C1 (amended): report aggregation over an empty evaluation list
returns, without raising, the default breakdown confidence 50,
communication 50, technical_depth 50, star_method_usage 0,
behavioral_clarity 50, with the overall hardcoded to 50 rather than the
weighted combination of those defaults. -/
theorem empty_report_default_scores :
    calculate_scores []
      = { confidence := 50, communication := 50, technical_depth := 50,
          star_method_usage := 0, behavioral_clarity := 50, overall := 50 } := rfl

/-! ### Interview service (backend/app/services/interview_service.py)

The submit operations are parametrized by the results the awaited agent
pipeline produces for this call (persona, evaluation, STAR result,
follow-up decision); from the state machine's viewpoint these depend on
the nondeterministic backend, so the theorems below quantify over them.
A Python IndexError is modelled as an Except.error result and leaves
the state unchanged, exactly as the exception propagates before any
mutation in the source. -/

/-- An Answer model object. -/
structure Answer where
  question_id : Int
  answer_text : String
  duration_seconds : ℚ
  word_count : Nat
deriving Repr, DecidableEq

/-- One entry of QuestionSession.follow_ups, the dict with keys
question, answer, type. -/
structure FollowUpEntry where
  question : String
  answer : Option String
  ftype : String
deriving Repr, DecidableEq

/-- A QuestionSession model object. -/
structure QuestionSession where
  question : InterviewQuestion
  initial_answer : Option Answer := none
  follow_ups : List FollowUpEntry := []
  persona_detected : PersonaType := PersonaType.NORMAL
  evaluation : Option ReportEval := none
deriving Repr, DecidableEq

/-- An InterviewSession model object; end_time is tracked as presence
of the optional timestamp. -/
structure InterviewSession where
  session_id : String
  questions : List QuestionSession
  current_question_index : Nat
  end_time_set : Bool := false
  status : String := "in_progress"
deriving Repr, DecidableEq

/-- The per-session state the service owns: the session plus its entry
in the session_evaluations store. -/
structure ServiceState where
  session : InterviewSession
  evaluations : List ReportEval
deriving Repr, DecidableEq

/-- A SubmitAnswerResponse model object. -/
structure SubmitAnswerResponse where
  success : Bool
  follow_up_question : Option FollowUpQuestion := none
  next_question : Option InterviewQuestion := none
  is_interview_complete : Bool := false
  message : String := ""
deriving Repr, DecidableEq

/-- The unhandled Python exceptions the submit operations can raise. -/
inductive ServiceError where
  | indexError
deriving Repr, DecidableEq

/-- The soft rejection returned when the answer exceeded the time
limit. -/
def answer_time_rejection : SubmitAnswerResponse :=
  { success := false,
    message := "Answer exceeded time limit. Moving to next question.",
    is_interview_complete := false }

/-- InterviewService.start_interview: generated questions wrapped into
fresh QuestionSessions, cursor 0, status in_progress. -/
def start_interview (session_id target_role : String) (outcome : GenOutcome) :
    ServiceState :=
  { session :=
      { session_id := session_id,
        questions := (generate_questions target_role outcome).map
          (fun q => { question := q }),
        current_question_index := 0 },
    evaluations := [] }

/-- InterviewService.submit_answer. -/
def submit_answer (st : ServiceState) (question_id : Int) (answer_text : String)
    (duration_seconds : ℚ) (persona : PersonaType) (evaluation : ReportEval)
    (star : StarCheckResult) (follow_up : Option FollowUpQuestion) :
    Except ServiceError (SubmitAnswerResponse × ServiceState) :=
  if duration_seconds > ANSWER_TIME_SECONDS then
    Except.ok (answer_time_rejection, st)
  else
    match st.session.questions.get? st.session.current_question_index with
    | none => Except.error ServiceError.indexError
    | some q_session =>
      let idx := st.session.current_question_index
      let word_count := (pySplitWs answer_text).length
      let answer : Answer :=
        { question_id := question_id, answer_text := answer_text,
          duration_seconds := duration_seconds, word_count := word_count }
      let eval2 : ReportEval :=
        { evaluation with
          star_analysis := some star,
          word_count := some (word_count : ℚ),
          persona := some persona.value }
      let q2 : QuestionSession :=
        { q_session with
          initial_answer := some answer,
          persona_detected := persona,
          evaluation := some eval2 }
      match follow_up with
      | some fu =>
        let q3 : QuestionSession :=
          { q2 with follow_ups :=
              q2.follow_ups ++ [{ question := fu.text, answer := none, ftype := fu.ftype }] }
        Except.ok
          ({ success := true, follow_up_question := some fu,
             message := "Follow-up question generated", is_interview_complete := false },
           { session := { st.session with questions := st.session.questions.set idx q3 },
             evaluations := st.evaluations ++ [eval2] })
      | none =>
        let session2 : InterviewSession :=
          { st.session with
            questions := st.session.questions.set idx q2,
            current_question_index := idx + 1 }
        if session2.questions.length ≤ session2.current_question_index then
          Except.ok
            ({ success := true, message := "Interview completed!",
               is_interview_complete := true },
             { session := { session2 with status := "completed", end_time_set := true },
               evaluations := st.evaluations ++ [eval2] })
        else
          match session2.questions.get? session2.current_question_index with
          | none => Except.error ServiceError.indexError
          | some next_q =>
            Except.ok
              ({ success := true, next_question := some next_q.question,
                 message := "Answer submitted successfully", is_interview_complete := false },
               { session := session2, evaluations := st.evaluations ++ [eval2] })

/-- Write into the answer field of the last pending follow-up, when one
exists (the source guards with `if q_session.follow_ups`). -/
def set_last_follow_up_answer (follow_ups : List FollowUpEntry) (answer_text : String) :
    List FollowUpEntry :=
  match follow_ups.getLast? with
  | none => follow_ups
  | some last => follow_ups.dropLast ++ [{ last with answer := some answer_text }]

/-- InterviewService.submit_followup_answer. -/
def submit_followup_answer (st : ServiceState) (answer_text : String)
    (_duration_seconds : ℚ) :
    Except ServiceError (SubmitAnswerResponse × ServiceState) :=
  match st.session.questions.get? st.session.current_question_index with
  | none => Except.error ServiceError.indexError
  | some q_session =>
    let idx := st.session.current_question_index
    let q2 : QuestionSession :=
      { q_session with
        follow_ups := set_last_follow_up_answer q_session.follow_ups answer_text }
    let session2 : InterviewSession :=
      { st.session with
        questions := st.session.questions.set idx q2,
        current_question_index := idx + 1 }
    if session2.questions.length ≤ session2.current_question_index then
      Except.ok
        ({ success := true, message := "Interview completed!", is_interview_complete := true },
         { session := { session2 with status := "completed", end_time_set := true },
           evaluations := st.evaluations })
    else
      match session2.questions.get? session2.current_question_index with
      | none => Except.error ServiceError.indexError
      | some next_q =>
        Except.ok
          ({ success := true, next_question := some next_q.question,
             message := "Follow-up answer submitted", is_interview_complete := false },
           { session := session2, evaluations := st.evaluations })

/-- One successful submit operation on a session (an operation that
raised leaves the state unchanged and is therefore not a step). -/
inductive Step : ServiceState → ServiceState → Prop
  | answer {st st2 : ServiceState} {question_id : Int} {answer_text : String}
      {duration_seconds : ℚ} {persona : PersonaType} {evaluation : ReportEval}
      {star : StarCheckResult} {follow_up : Option FollowUpQuestion}
      {r : SubmitAnswerResponse} :
      submit_answer st question_id answer_text duration_seconds persona evaluation star
        follow_up = Except.ok (r, st2) → Step st st2
  | followup {st st2 : ServiceState} {answer_text : String} {duration_seconds : ℚ}
      {r : SubmitAnswerResponse} :
      submit_followup_answer st answer_text duration_seconds = Except.ok (r, st2) →
      Step st st2

/-- States reachable from a freshly started session by submit calls. -/
inductive Reachable (session_id target_role : String) (outcome : GenOutcome) :
    ServiceState → Prop
  | start : Reachable session_id target_role outcome
      (start_interview session_id target_role outcome)
  | step {st st2 : ServiceState} :
      Reachable session_id target_role outcome st → Step st st2 →
      Reachable session_id target_role outcome st2

/-- The session lifecycle invariant. -/
def SessionInv (st : ServiceState) : Prop :=
  (st.session.status = "in_progress" ∨ st.session.status = "completed")
  ∧ (st.session.status = "completed"
      ↔ st.session.current_question_index = st.session.questions.length)
  ∧ (st.session.end_time_set = true ↔ st.session.status = "completed")
  ∧ st.session.questions.length = TOTAL_QUESTIONS

lemma generate_questions_length (role : String) (outcome : GenOutcome) :
    (generate_questions role outcome).length = TOTAL_QUESTIONS := by
  cases outcome with
  | failure => simp [generate_questions, fallback_questions, TOTAL_QUESTIONS]
  | parsed entries => exact pad_questions_length _ _

lemma get?_lt_length {α : Type} {l : List α} {n : Nat} {a : α}
    (h : l.get? n = some a) : n < l.length := by
  obtain ⟨hlt, _⟩ := List.get?_eq_some.mp h
  exact hlt

lemma start_interview_fields (session_id target_role : String) (outcome : GenOutcome) :
    (start_interview session_id target_role outcome).session.status = "in_progress"
    ∧ (start_interview session_id target_role outcome).session.current_question_index = 0
    ∧ (start_interview session_id target_role outcome).session.end_time_set = false
    ∧ (start_interview session_id target_role outcome).session.questions.length
        = TOTAL_QUESTIONS := by
  refine ⟨rfl, rfl, rfl, ?_⟩
  simp [start_interview, generate_questions_length]

lemma start_interview_inv (session_id target_role : String) (outcome : GenOutcome) :
    SessionInv (start_interview session_id target_role outcome) := by
  obtain ⟨h1, h2, h3, h4⟩ := start_interview_fields session_id target_role outcome
  refine ⟨Or.inl h1, ?_, ?_, h4⟩
  · rw [h1, h2, h4]
    constructor
    · intro hc; exact absurd hc (by decide)
    · intro hc; exact absurd hc (by decide)
  · rw [h1, h3]
    constructor
    · intro hc; exact absurd hc (by decide)
    · intro hc; exact absurd hc (by decide)

lemma submit_answer_preserves_inv {st st2 : ServiceState} {question_id : Int}
    {answer_text : String} {duration_seconds : ℚ} {persona : PersonaType}
    {evaluation : ReportEval} {star : StarCheckResult}
    {follow_up : Option FollowUpQuestion} {r : SubmitAnswerResponse}
    (heq : submit_answer st question_id answer_text duration_seconds persona evaluation
      star follow_up = Except.ok (r, st2))
    (hinv : SessionInv st) : SessionInv st2 := by
  obtain ⟨hstat, hcomp, hend, hlen⟩ := hinv
  unfold submit_answer at heq
  split at heq
  · cases heq
    exact ⟨hstat, hcomp, hend, hlen⟩
  · split at heq
    · exact absurd heq (by simp)
    · rename_i q_session hg
      have hlt := get?_lt_length hg
      dsimp only at heq
      split at heq
      · cases heq
        exact ⟨hstat, by simpa using hcomp, hend, by simpa using hlen⟩
      · split at heq
        · rename_i hdone
          cases heq
          simp only [List.length_set] at hdone
          constructor
          · exact Or.inr rfl
          refine ⟨?_, ?_, ?_⟩
          · simp only [List.length_set]
            constructor
            · intro _
              omega
            · intro _
              trivial
          · constructor
            · intro _
              trivial
            · intro _
              trivial
          · simpa using hlen
        · split at heq
          · exact absurd heq (by simp)
          · rename_i next_q hg2
            cases heq
            have hlt2 := get?_lt_length hg2
            simp only [List.length_set] at hlt2
            have hnc : st.session.status ≠ "completed" := by
              intro hc
              have := hcomp.mp hc
              omega
            have hip : st.session.status = "in_progress" := hstat.resolve_right hnc
            refine ⟨Or.inl hip, ?_, ?_, by simpa using hlen⟩
            · simp only [List.length_set]
              constructor
              · intro hc; exact absurd hc hnc
              · intro hc; omega
            · rw [hend]

lemma submit_followup_preserves_inv {st st2 : ServiceState} {answer_text : String}
    {duration_seconds : ℚ} {r : SubmitAnswerResponse}
    (heq : submit_followup_answer st answer_text duration_seconds = Except.ok (r, st2))
    (hinv : SessionInv st) : SessionInv st2 := by
  obtain ⟨hstat, hcomp, hend, hlen⟩ := hinv
  unfold submit_followup_answer at heq
  split at heq
  · exact absurd heq (by simp)
  · rename_i q_session hg
    have hlt := get?_lt_length hg
    dsimp only at heq
    split at heq
    · rename_i hdone
      cases heq
      simp only [List.length_set] at hdone
      constructor
      · exact Or.inr rfl
      refine ⟨?_, ?_, ?_⟩
      · simp only [List.length_set]
        constructor
        · intro _
          omega
        · intro _
          trivial
      · constructor
        · intro _
          trivial
        · intro _
          trivial
      · simpa using hlen
    · split at heq
      · exact absurd heq (by simp)
      · rename_i next_q hg2
        cases heq
        have hlt2 := get?_lt_length hg2
        simp only [List.length_set] at hlt2
        have hnc : st.session.status ≠ "completed" := by
          intro hc
          have := hcomp.mp hc
          omega
        have hip : st.session.status = "in_progress" := hstat.resolve_right hnc
        refine ⟨Or.inl hip, ?_, ?_, by simpa using hlen⟩
        · simp only [List.length_set]
          constructor
          · intro hc; exact absurd hc hnc
          · intro hc; omega
        · rw [hend]

lemma reachable_inv {session_id target_role : String} {outcome : GenOutcome}
    {st : ServiceState} (h : Reachable session_id target_role outcome st) :
    SessionInv st := by
  induction h with
  | start => exact start_interview_inv session_id target_role outcome
  | step _ hstep ih =>
    cases hstep with
    | answer heq => exact submit_answer_preserves_inv heq ih
    | followup heq => exact submit_followup_preserves_inv heq ih

lemma completed_no_state_change {st st2 : ServiceState}
    (hc : st.session.current_question_index = st.session.questions.length)
    (hstep : Step st st2) : st2 = st := by
  have hg : st.session.questions.get? st.session.current_question_index = none := by
    rw [List.get?_eq_none]
    omega
  cases hstep with
  | answer heq =>
    unfold submit_answer at heq
    split at heq
    · cases heq; rfl
    · rw [hg] at heq
      exact absurd heq (by simp)
  | followup heq =>
    unfold submit_followup_answer at heq
    rw [hg] at heq
    exact absurd heq (by simp)

/-- C2: in every state reachable by submit_answer and
submit_followup_answer calls from a started session, the session status
is completed exactly when the cursor has reached the question count,
the end timestamp is set exactly in the completed states, and once the
end timestamp is set no further successful call changes the state, so
the timestamp is set exactly once, at the transition to completed. -/
theorem session_completion_invariant (session_id target_role : String)
    (outcome : GenOutcome) (st : ServiceState)
    (h : Reachable session_id target_role outcome st) :
    (st.session.status = "completed"
      ↔ st.session.current_question_index = st.session.questions.length)
    ∧ (st.session.end_time_set = true ↔ st.session.status = "completed")
    ∧ (∀ st2 : ServiceState, Step st st2 → st.session.end_time_set = true → st2 = st) := by
  obtain ⟨hstat, hcomp, hend, hlen⟩ := reachable_inv h
  refine ⟨hcomp, hend, ?_⟩
  intro st2 hstep hset
  exact completed_no_state_change (hcomp.mp (hend.mp hset)) hstep

/-- C2 witness: the invariant instantiated at a freshly started
session. -/
theorem session_completion_invariant_witness :
    ((start_interview "s1" "Software Engineer" GenOutcome.failure).session.status = "completed"
      ↔ (start_interview "s1" "Software Engineer" GenOutcome.failure).session.current_question_index
          = (start_interview "s1" "Software Engineer" GenOutcome.failure).session.questions.length) :=
  (session_completion_invariant "s1" "Software Engineer" GenOutcome.failure _
    Reachable.start).1

/-- C3: submitting an answer whose duration exceeds the configured
limit returns the rejection response with success false and returns the
state unchanged: the cursor is not advanced, no answer or evaluation is
recorded on the current slot, nothing is appended to the evaluation
list, and status and end timestamp are untouched. -/
theorem submit_answer_over_limit_rejected (st : ServiceState) (question_id : Int)
    (answer_text : String) (duration_seconds : ℚ) (persona : PersonaType)
    (evaluation : ReportEval) (star : StarCheckResult)
    (follow_up : Option FollowUpQuestion)
    (h : duration_seconds > ANSWER_TIME_SECONDS) :
    submit_answer st question_id answer_text duration_seconds persona evaluation star
        follow_up = Except.ok (answer_time_rejection, st)
    ∧ answer_time_rejection.success = false := by
  constructor
  · unfold submit_answer
    rw [if_pos h]
  · rfl

/-- C3 witness: a concrete fresh session and a 181-second answer
against the 180-second limit. -/
theorem submit_answer_over_limit_rejected_witness :
    submit_answer (start_interview "s2" "Data Analyst" GenOutcome.failure) 1 "hello" 181
        PersonaType.NORMAL {} ⟨{}, 0⟩ none
      = Except.ok (answer_time_rejection, start_interview "s2" "Data Analyst" GenOutcome.failure)
    ∧ answer_time_rejection.success = false :=
  submit_answer_over_limit_rejected (start_interview "s2" "Data Analyst" GenOutcome.failure)
    1 "hello" 181 PersonaType.NORMAL {} ⟨{}, 0⟩ none (by norm_num [ANSWER_TIME_SECONDS])

/-- C10: on a session whose cursor equals the question count (the
completed state), submit_answer with an in-limit duration and
submit_followup_answer both fail with the out-of-bounds indexing error
when fetching the current question slot, instead of returning a defined
rejection response. -/
theorem completed_session_submission_raises (st : ServiceState) (question_id : Int)
    (answer_text : String) (duration_seconds : ℚ) (persona : PersonaType)
    (evaluation : ReportEval) (star : StarCheckResult)
    (follow_up : Option FollowUpQuestion) (fu_text : String) (fu_duration : ℚ)
    (hc : st.session.current_question_index = st.session.questions.length)
    (hd : duration_seconds ≤ ANSWER_TIME_SECONDS) :
    submit_answer st question_id answer_text duration_seconds persona evaluation star
        follow_up = Except.error ServiceError.indexError
    ∧ submit_followup_answer st fu_text fu_duration = Except.error ServiceError.indexError := by
  have hg : st.session.questions.get? st.session.current_question_index = none := by
    rw [List.get?_eq_none]
    omega
  constructor
  · unfold submit_answer
    rw [if_neg (not_lt.mpr hd), hg]
  · unfold submit_followup_answer
    rw [hg]

/-- C10 witness: a concrete completed five-question session (cursor 5)
raises on both operations. -/
theorem completed_session_submission_raises_witness :
    submit_answer
        { session :=
            { session_id := "s3",
              questions := (generate_questions "Engineer" GenOutcome.failure).map
                (fun q => { question := q }),
              current_question_index := 5,
              end_time_set := true, status := "completed" },
          evaluations := [] } 1 "text" 10 PersonaType.NORMAL {} ⟨{}, 0⟩ none
      = Except.error ServiceError.indexError :=
  (completed_session_submission_raises _ 1 "text" 10 PersonaType.NORMAL {} ⟨{}, 0⟩ none
    "f" 10
    (by simp [generate_questions_length, TOTAL_QUESTIONS])
    (by norm_num [ANSWER_TIME_SECONDS])).1

end Eightfold
